import Mathlib

/-!
Verification development for the vacation-rental backend
(`src/backend/server.ts`, `src/backend/schema.ts`, SQL DDL in
`src/unnamed/part_000`).

The Express route handlers are shallowly embedded as pure Lean functions
over an explicit database state (`DB`, lists of rows mirroring the SQL
tables). SQL `TEXT` values (ids, ISO dates, timestamps) are Lean
`String`s; SQL `TEXT` comparison (`BETWEEN`, `ORDER BY`) is byte-wise
lexicographic, embedded as `strLe`. Numeric columns are `Int`.
Fresh identifiers produced by `nanoid()` and timestamps produced by
`new Date().toISOString()` are passed to the handler functions as
explicit arguments. A handler returns `Except ErrCode …`; an error
corresponds to the handler's early-return JSON error response, in which
case the database is not written (the TypeScript handlers return before
any INSERT/UPDATE on those paths). Query parameters that the handlers
treat as absent (undefined, and falsy coercion results such as empty
string, 0 or NaN, per the `if (param)` truthiness guards) are modelled
as `none`.
-/

namespace Srv

/-- Byte-wise lexicographic `≤` on character lists, the order Postgres
uses for `TEXT` comparison of the ISO date / timestamp strings stored in
the schema. -/
def leChars : List Char → List Char → Bool
  | [], _ => true
  | _ :: _, [] => false
  | a :: as, b :: bs => if a = b then leChars as bs else decide (a < b)

/-- `TEXT` comparison used by SQL `BETWEEN` and `ORDER BY` on date and
timestamp columns. -/
def strLe (a b : String) : Bool := leChars a.data b.data

/-- Case-insensitive substring test: the semantics of SQL
`col ILIKE '%pat%'` as used by the search handler. -/
def likeContains : List Char → List Char → Bool
  | _, [] => true
  | [], _ :: _ => false
  | c :: rest, pat => pat.isPrefixOf (c :: rest) || likeContains rest pat

/-- `col ILIKE $1` with parameter `'%' ++ pat ++ '%'`. -/
def ilikeContains (col pat : String) : Bool :=
  likeContains col.toLower.data pat.toLower.data

/-- Case analysis on an optional row (the `rows.length === 0` check the
handlers perform after a lookup query). -/
def optCase {α β : Type} (o : Option α) (none_val : β) (some_fn : α → β) : β :=
  match o with
  | none => none_val
  | some a => some_fn a

/-- Error codes emitted by `createErrorResponse` in the route handlers. -/
inductive ErrCode where
  | VALIDATION_ERROR
  | PROPERTY_NOT_FOUND
  | BOOKING_NOT_FOUND
  | FORBIDDEN_ACCESS
  | BOOKING_NOT_COMPLETED
  | REVIEW_ALREADY_EXISTS
  | NO_UPDATE_FIELDS
  | INTERNAL_SERVER_ERROR
deriving DecidableEq, Repr

/-- A row of the `users` table (the columns the embedded handlers read). -/
structure User where
  user_id : String
  name : String
  role : String
deriving DecidableEq, Repr

/-- A row of the `properties` table (the columns the embedded handlers
read). -/
structure Property where
  property_id : String
  host_id : String
  city : String
  neighborhood : String
  property_type : String
  amenities : String
  guest_capacity : Int
  base_price_per_night : Int
  is_active : Bool
  created_at : String
deriving DecidableEq, Repr

/-- A row of the `property_availability` table. -/
structure AvailRow where
  availability_id : String
  property_id : String
  date : String
  is_available : Bool
  price_override : Option Int
deriving DecidableEq, Repr

/-- A row of the `bookings` table. -/
structure Booking where
  booking_id : String
  property_id : String
  guest_id : String
  host_id : String
  check_in : String
  check_out : String
  guest_count : Int
  total_price : Int
  service_fee : Int
  special_requests : Option String
  status : String
  created_at : String
  updated_at : String
deriving DecidableEq, Repr

/-- A row of the `conversations` table. -/
structure Conversation where
  conversation_id : String
  booking_id : String
  guest_id : String
  host_id : String
  created_at : String
  updated_at : String
deriving DecidableEq, Repr

/-- A row of the `notifications` table. -/
structure Notification where
  notification_id : String
  user_id : String
  type : String
  title : String
  message : String
  related_entity_type : Option String
  related_entity_id : Option String
  is_read : Bool
  created_at : String
deriving DecidableEq, Repr

/-- A row of the `reviews` table. -/
structure Review where
  review_id : String
  booking_id : String
  property_id : String
  reviewer_id : String
  host_id : String
  cleanliness_rating : Int
  accuracy_rating : Int
  communication_rating : Int
  location_rating : Int
  check_in_rating : Int
  value_rating : Int
  overall_rating : Int
  comment : Option String
  created_at : String
  updated_at : String
deriving DecidableEq, Repr

/-- The database state the handlers operate on. -/
structure DB where
  users : List User
  properties : List Property
  availability : List AvailRow
  bookings : List Booking
  conversations : List Conversation
  notifications : List Notification
  reviews : List Review
deriving DecidableEq, Repr

/-! ## GET /api/properties — search (server.ts:576–687) -/

/-- Query parameters of `GET /api/properties` after the handler's
coercion step; `none` stands for an absent (or falsy) parameter, for
which the handler adds no WHERE clause. -/
structure SearchParams where
  location : Option String := none
  check_in : Option String := none
  check_out : Option String := none
  guests : Option Int := none
  price_min : Option Int := none
  price_max : Option Int := none
  property_type : Option String := none
  amenities : Option String := none
  sort_by : Option String := none
  limit : Nat := 10
  offset : Nat := 0
deriving Repr

/-- The date-availability condition of the search query: `property_id
NOT IN (SELECT DISTINCT property_id FROM property_availability WHERE
date BETWEEN $check_in AND $check_out AND is_available = false)`.
Applied only when both `check_in` and `check_out` are given. -/
def dateAvailabilityOk (avail : List AvailRow) (params : SearchParams)
    (p : Property) : Bool :=
  match params.check_in, params.check_out with
  | some ci, some co =>
      ! avail.any fun r =>
          r.property_id = p.property_id && strLe ci r.date && strLe r.date co
            && r.is_available = false
  | _, _ => true

/-- The conjunction of WHERE clauses of the search query
(`is_active = true` plus one clause per supplied filter). -/
def matchesSearch (avail : List AvailRow) (params : SearchParams)
    (p : Property) : Bool :=
  p.is_active
    && (match params.location with
        | none => true
        | some l => ilikeContains p.city l || ilikeContains p.neighborhood l)
    && (match params.guests with
        | none => true
        | some g => g ≤ p.guest_capacity)
    && (match params.price_min with
        | none => true
        | some m => m ≤ p.base_price_per_night)
    && (match params.price_max with
        | none => true
        | some m => p.base_price_per_night ≤ m)
    && (match params.property_type with
        | none => true
        | some t => p.property_type = t)
    && (match params.amenities with
        | none => true
        | some a => ilikeContains p.amenities a)
    && dateAvailabilityOk avail params p

/-- The ORDER BY comparator selected by `sort_by` (default:
`created_at DESC`). -/
def searchSortLe (sort_by : Option String) (a b : Property) : Bool :=
  match sort_by with
  | some "price_low_to_high" => a.base_price_per_night ≤ b.base_price_per_night
  | some "price_high_to_low" => b.base_price_per_night ≤ a.base_price_per_night
  | _ => strLe b.created_at a.created_at

/-- Insert into a list sorted by `le` (auxiliary for `sortLe`). -/
def insertLe {α : Type} (le : α → α → Bool) (a : α) : List α → List α
  | [] => [a]
  | b :: bs => if le a b then a :: b :: bs else b :: insertLe le a bs

/-- Insertion sort, modelling SQL `ORDER BY` (the claims depend only on
which rows appear, never on their positions). -/
def sortLe {α : Type} (le : α → α → Bool) : List α → List α
  | [] => []
  | a :: as => insertLe le a (sortLe le as)

/-- Response body of `GET /api/properties`. -/
structure SearchResult where
  properties : List Property
  total_count : Nat
deriving Repr

/-- `GET /api/properties`: filter by the WHERE clauses, sort, apply
`LIMIT`/`OFFSET`, and pair with `total_count` computed by the separate
query `SELECT COUNT(*) FROM properties WHERE is_active = true`. -/
def searchProperties (db : DB) (params : SearchParams) : SearchResult :=
  let filtered := db.properties.filter (matchesSearch db.availability params)
  let sorted := sortLe (searchSortLe params.sort_by) filtered
  { properties := (sorted.drop params.offset).take params.limit
    total_count := (db.properties.filter (fun p => p.is_active)).length }

/-! ## GET /api/properties/:property_id (server.ts:743–761) -/

/-- `GET /api/properties/:property_id`: fetch by id with no `is_active`
condition; 404 when no row matches. -/
def getProperty (db : DB) (property_id : String) : Except ErrCode Property :=
  match db.properties.find? (fun p => p.property_id = property_id) with
  | none => .error .PROPERTY_NOT_FOUND
  | some p => .ok p

/-! ## POST /api/bookings (server.ts:1216–1286) -/

/-- Allowed values of the zod `status` enum used by
`createBookingInputSchema` / `updateBookingInputSchema`
(schema.ts:269–293). -/
def bookingStatuses : List String :=
  ["pending", "confirmed", "declined", "cancelled", "completed"]

/-- Request body for `POST /api/bookings` (before the handler injects
`guest_id` from the authenticated user). `status := none` models an
absent field, which zod defaults to `"pending"`. -/
structure CreateBookingInput where
  property_id : String
  check_in : String
  check_out : String
  guest_count : Int
  total_price : Int
  service_fee : Int
  special_requests : Option String := none
  status : Option String := none
deriving Repr

/-- Validation performed by `createBookingInputSchema.parse`
(schema.ts:269–279). -/
def validCreateBookingInput (i : CreateBookingInput) : Bool :=
  1 ≤ i.property_id.length
    && 0 < i.guest_count
    && 0 ≤ i.total_price
    && 0 ≤ i.service_fee
    && (match i.special_requests with
        | none => true
        | some s => s.length ≤ 500)
    && (match i.status with
        | none => true
        | some s => bookingStatuses.contains s)

/-- `POST /api/bookings`: zod-validate, look up the property (404 when
absent — existence is the only property check performed), insert the
booking with `host_id` copied from the property and status defaulted to
`pending`, then insert one conversation for (booking, guest, host) and
one `booking_request` notification addressed to the host. -/
def createBooking (db : DB) (user : User) (input : CreateBookingInput)
    (booking_id conversation_id notification_id now : String) :
    Except ErrCode (DB × Booking) :=
  if ¬ validCreateBookingInput input then .error .VALIDATION_ERROR
  else
    match db.properties.find? (fun p => p.property_id = input.property_id) with
    | none => .error .PROPERTY_NOT_FOUND
    | some prop =>
      let b : Booking :=
        { booking_id := booking_id
          property_id := input.property_id
          guest_id := user.user_id
          host_id := prop.host_id
          check_in := input.check_in
          check_out := input.check_out
          guest_count := input.guest_count
          total_price := input.total_price
          service_fee := input.service_fee
          special_requests := input.special_requests
          status := (input.status.getD "pending")
          created_at := now
          updated_at := now }
      let conv : Conversation :=
        { conversation_id := conversation_id
          booking_id := booking_id
          guest_id := user.user_id
          host_id := prop.host_id
          created_at := now
          updated_at := now }
      let notif : Notification :=
        { notification_id := notification_id
          user_id := prop.host_id
          type := "booking_request"
          title := "New Booking Request"
          message := "You have a new booking request from " ++ user.name
          related_entity_type := some "booking"
          related_entity_id := some booking_id
          is_read := false
          created_at := now }
      .ok ({ db with
              bookings := db.bookings ++ [b]
              conversations := db.conversations ++ [conv]
              notifications := db.notifications ++ [notif] }, b)

/-! ## PATCH /api/bookings/:booking_id (server.ts:1323–1432) -/

/-- Request body for `PATCH /api/bookings/:booking_id`; every field is
optional in `updateBookingInputSchema` (schema.ts:282–293), `none`
meaning the field is absent from the update. `special_requests` is
nullable, hence `Option (Option String)`. -/
structure UpdateBookingInput where
  property_id : Option String := none
  guest_id : Option String := none
  host_id : Option String := none
  check_in : Option String := none
  check_out : Option String := none
  guest_count : Option Int := none
  total_price : Option Int := none
  service_fee : Option Int := none
  special_requests : Option (Option String) := none
  status : Option String := none
deriving Repr

/-- Validation performed by `updateBookingInputSchema.parse`: per-field
checks on whichever fields are present; in particular `status` must be
one of the five enum values. -/
def validUpdateBookingInput (u : UpdateBookingInput) : Bool :=
  (match u.guest_count with | none => true | some g => 0 < g)
    && (match u.total_price with | none => true | some t => 0 ≤ t)
    && (match u.service_fee with | none => true | some f => 0 ≤ f)
    && (match u.special_requests with
        | none => true
        | some none => true
        | some (some s) => s.length ≤ 500)
    && (match u.status with
        | none => true
        | some s => bookingStatuses.contains s)

/-- True when at least one updatable field is present (otherwise the
handler answers `NO_UPDATE_FIELDS`). -/
def hasUpdateField (u : UpdateBookingInput) : Bool :=
  u.property_id.isSome || u.guest_id.isSome || u.host_id.isSome
    || u.check_in.isSome || u.check_out.isSome || u.guest_count.isSome
    || u.total_price.isSome || u.service_fee.isSome
    || u.special_requests.isSome || u.status.isSome

/-- The dynamic `UPDATE bookings SET …` built from the present fields,
plus `updated_at = now`. -/
def applyBookingUpdate (b : Booking) (u : UpdateBookingInput) (now : String) :
    Booking :=
  { b with
    property_id := u.property_id.getD b.property_id
    guest_id := u.guest_id.getD b.guest_id
    host_id := u.host_id.getD b.host_id
    check_in := u.check_in.getD b.check_in
    check_out := u.check_out.getD b.check_out
    guest_count := u.guest_count.getD b.guest_count
    total_price := u.total_price.getD b.total_price
    service_fee := u.service_fee.getD b.service_fee
    special_requests := u.special_requests.getD b.special_requests
    status := u.status.getD b.status
    updated_at := now }

/-- The status-change notification synthesized by the PATCH handler:
`confirmed`/`declined` notify the guest, `cancelled` notifies the
counterparty of whoever performed the update, and any other new status
(in particular `completed` and `pending`) produces no notification. -/
def statusChangeNotification (cur : Booking) (user : User) (newStatus : String)
    (notification_id now : String) : Option Notification :=
  let target : Option (String × String × String × String) :=
    if newStatus = "confirmed" then
      some (cur.guest_id, "booking_confirmed", "Booking Confirmed",
        "Your booking has been confirmed by the host")
    else if newStatus = "declined" then
      some (cur.guest_id, "booking_declined", "Booking Declined",
        "Your booking request has been declined")
    else if newStatus = "cancelled" then
      some (if user.user_id = cur.guest_id then cur.host_id else cur.guest_id,
        "booking_cancelled", "Booking Cancelled", "A booking has been cancelled")
    else none
  target.map fun (uid, ty, ti, msg) =>
    { notification_id := notification_id
      user_id := uid
      type := ty
      title := ti
      message := msg
      related_entity_type := some "booking"
      related_entity_id := some cur.booking_id
      is_read := false
      created_at := now }

/-- `PATCH /api/bookings/:booking_id`: look up the booking (404 when
absent), reject a requester who is neither admin nor the booking's guest
or host, zod-validate the body, apply the present fields, and insert the
status-change notification when the status field is present and differs
from the current status. No state-machine edge and no per-transition
authority are checked. -/
def patchBooking (db : DB) (user : User) (booking_id : String)
    (u : UpdateBookingInput) (notification_id now : String) :
    Except ErrCode (DB × Booking) :=
  optCase (db.bookings.find? (fun b => b.booking_id = booking_id))
    (.error .BOOKING_NOT_FOUND) fun cur =>
    if user.role ≠ "admin" && cur.guest_id ≠ user.user_id
        && cur.host_id ≠ user.user_id then
      .error .FORBIDDEN_ACCESS
    else if ¬ validUpdateBookingInput u then .error .VALIDATION_ERROR
    else if ¬ hasUpdateField u then .error .NO_UPDATE_FIELDS
    else
      let updated := applyBookingUpdate cur u now
      let db₁ := { db with
        bookings := db.bookings.map fun b =>
          if b.booking_id = booking_id then updated else b }
      let db₂ :=
        match u.status with
        | some s =>
          if s ≠ cur.status then
            match statusChangeNotification cur user s notification_id now with
            | some n => { db₁ with notifications := db₁.notifications ++ [n] }
            | none => db₁
          else db₁
        | none => db₁
      .ok (db₂, updated)

/-! ## POST /api/bookings/:booking_id/reviews (server.ts:1438–1529) -/

/-- Rating fields and comment of the review request body (the ids are
injected by the handler from the booking row). -/
structure ReviewInput where
  cleanliness_rating : Int
  accuracy_rating : Int
  communication_rating : Int
  location_rating : Int
  check_in_rating : Int
  value_rating : Int
  overall_rating : Int
  comment : Option String := none
deriving Repr

/-- Validation performed by `createReviewInputSchema.parse`
(schema.ts:409–422): each rating is an integer in `[1,5]`, the comment
at most 1000 characters. -/
def validReviewInput (i : ReviewInput) : Bool :=
  (1 ≤ i.cleanliness_rating && i.cleanliness_rating ≤ 5)
    && (1 ≤ i.accuracy_rating && i.accuracy_rating ≤ 5)
    && (1 ≤ i.communication_rating && i.communication_rating ≤ 5)
    && (1 ≤ i.location_rating && i.location_rating ≤ 5)
    && (1 ≤ i.check_in_rating && i.check_in_rating ≤ 5)
    && (1 ≤ i.value_rating && i.value_rating ≤ 5)
    && (1 ≤ i.overall_rating && i.overall_rating ≤ 5)
    && (match i.comment with | none => true | some c => c.length ≤ 1000)

/-- `POST /api/bookings/:booking_id/reviews`, in the handler's check
order: booking lookup (404), requester must be the booking's guest
(403 FORBIDDEN_ACCESS), booking must be `completed`
(400 BOOKING_NOT_COMPLETED), no review may already exist for the booking
(400 REVIEW_ALREADY_EXISTS), then zod validation, the review INSERT and
a `review_received` notification to the host. -/
def createReview (db : DB) (user : User) (booking_id : String)
    (input : ReviewInput) (review_id notification_id now : String) :
    Except ErrCode (DB × Review) :=
  optCase (db.bookings.find? (fun b => b.booking_id = booking_id))
    (.error .BOOKING_NOT_FOUND) fun booking =>
    if booking.guest_id ≠ user.user_id then .error .FORBIDDEN_ACCESS
    else if booking.status ≠ "completed" then .error .BOOKING_NOT_COMPLETED
    else if db.reviews.any (fun r => r.booking_id = booking_id) then
      .error .REVIEW_ALREADY_EXISTS
    else if ¬ validReviewInput input then .error .VALIDATION_ERROR
    else
      let rev : Review :=
        { review_id := review_id
          booking_id := booking_id
          property_id := booking.property_id
          reviewer_id := user.user_id
          host_id := booking.host_id
          cleanliness_rating := input.cleanliness_rating
          accuracy_rating := input.accuracy_rating
          communication_rating := input.communication_rating
          location_rating := input.location_rating
          check_in_rating := input.check_in_rating
          value_rating := input.value_rating
          overall_rating := input.overall_rating
          comment := input.comment
          created_at := now
          updated_at := now }
      let notif : Notification :=
        { notification_id := notification_id
          user_id := booking.host_id
          type := "review_received"
          title := "New Review"
          message := "You received a new review from " ++ user.name
          related_entity_type := some "review"
          related_entity_id := some review_id
          is_read := false
          created_at := now }
      .ok ({ db with
              reviews := db.reviews ++ [rev]
              notifications := db.notifications ++ [notif] }, rev)

/-! ## POST /api/properties/:property_id/availability (server.ts:1061–1104)

The handler runs `INSERT INTO property_availability … ON CONFLICT
(property_id, date) DO UPDATE SET is_available = $4, price_override = $5`.
Postgres executes an `ON CONFLICT (cols) DO UPDATE` statement only when a
unique index or constraint on exactly those columns exists; otherwise the
statement itself fails ("there is no unique or exclusion constraint
matching the ON CONFLICT specification") and the handler's catch block
answers 500. The unique column sets actually declared for
`property_availability` by the DDL (src/unnamed/part_000:56–62) are
listed in `property_availability_unique_keys`. -/

/-- Unique column sets declared on `property_availability` by the DDL:
only the primary key `availability_id`; no UNIQUE constraint on
`(property_id, date)` is created anywhere in the DDL. -/
def property_availability_unique_keys : List (List String) :=
  [["availability_id"]]

/-- The conflict target named by the handler's INSERT statement. -/
def availabilityOnConflictTarget : List String := ["property_id", "date"]

/-- The row-level effect the `ON CONFLICT (property_id, date) DO UPDATE`
statement would have if its conflict target were backed by a unique
constraint: update `is_available`/`price_override` of the existing row
for the key, or insert a fresh row. -/
def upsertAvailabilityRow (rows : List AvailRow)
    (availability_id property_id date : String) (is_available : Bool)
    (price_override : Option Int) : List AvailRow :=
  if rows.any (fun r => r.property_id = property_id && r.date = date) then
    rows.map fun r =>
      if r.property_id = property_id && r.date = date then
        { r with is_available := is_available, price_override := price_override }
      else r
  else
    rows ++ [{ availability_id := availability_id
               property_id := property_id
               date := date
               is_available := is_available
               price_override := price_override }]

/-- Validation performed by `createPropertyAvailabilityInputSchema.parse`
(schema.ts:224–229): `price_override`, when present, must be positive. -/
def validAvailabilityInput (price_override : Option Int) : Bool :=
  match price_override with
  | none => true
  | some v => 0 < v

/-- `POST /api/properties/:property_id/availability`: ownership check
against the property's host (admin exempt), zod validation, then the
INSERT … ON CONFLICT statement — which Postgres refuses outright because
`availabilityOnConflictTarget` matches no unique constraint of the
table, so the write path always ends in the 500 handler. -/
def upsertAvailability (db : DB) (user : User) (property_id : String)
    (date : String) (is_available : Bool) (price_override : Option Int)
    (availability_id : String) : Except ErrCode DB :=
  match db.properties.find? (fun p => p.property_id = property_id) with
  | none => .error .PROPERTY_NOT_FOUND
  | some prop =>
    if prop.host_id ≠ user.user_id && user.role ≠ "admin" then
      .error .FORBIDDEN_ACCESS
    else if ¬ validAvailabilityInput price_override then
      .error .VALIDATION_ERROR
    else if property_availability_unique_keys.contains
        availabilityOnConflictTarget then
      .ok { db with
        availability := upsertAvailabilityRow db.availability availability_id
          property_id date is_available price_override }
    else .error .INTERNAL_SERVER_ERROR

/-! ## Concrete rows used by witnesses and counterexamples -/

/-- Strict version of the `TEXT` order. -/
def strLt (a b : String) : Bool := strLe a b && a != b

/-- Empty database. -/
def db0 : DB :=
  { users := [], properties := [], availability := [], bookings := []
    conversations := [], notifications := [], reviews := [] }

def hostU : User := { user_id := "user_h", name := "Host H", role := "host" }

def guestU : User := { user_id := "user_g", name := "Guest G", role := "guest" }

def outsiderU : User := { user_id := "user_x", name := "Other X", role := "guest" }

def prop1 : Property :=
  { property_id := "prop_1", host_id := "user_h", city := "Tripoli"
    neighborhood := "Center", property_type := "apartment", amenities := "WiFi"
    guest_capacity := 4, base_price_per_night := 100, is_active := true
    created_at := "2023-01-01T00:00:00Z" }

def prop2 : Property := { prop1 with property_id := "prop_2", is_active := false }

/-- Availability row blocking exactly the check-out date of `params5`. -/
def availBlockedCheckout : AvailRow :=
  { availability_id := "avail_1", property_id := "prop_1"
    date := "2023-06-05", is_available := false, price_override := none }

def db5 : DB := { db0 with properties := [prop1], availability := [availBlockedCheckout] }

def params5 : SearchParams :=
  { check_in := some "2023-06-01", check_out := some "2023-06-05" }

def db6 : DB := { db0 with properties := [prop2] }

/-! ## Helper lemmas -/

theorem optCase_none {α β : Type} (n : β) (f : α → β) :
    optCase none n f = n := rfl

theorem optCase_some {α β : Type} (a : α) (n : β) (f : α → β) :
    optCase (some a) n f = f a := rfl

theorem mem_insertLe {α : Type} {le : α → α → Bool} {a b : α} {l : List α} :
    b ∈ insertLe le a l ↔ b = a ∨ b ∈ l := by
  induction l with
  | nil => simp [insertLe]
  | cons c cs ih =>
    simp only [insertLe]
    split
    · simp [List.mem_cons]
    · simp [List.mem_cons, ih]
      tauto

theorem mem_sortLe {α : Type} {le : α → α → Bool} {a : α} {l : List α} :
    a ∈ sortLe le l ↔ a ∈ l := by
  induction l with
  | nil => simp [sortLe]
  | cons c cs ih => simp [sortLe, mem_insertLe, ih]

theorem matchesSearch_of_mem_search {db : DB} {params : SearchParams}
    {p : Property} (h : p ∈ (searchProperties db params).properties) :
    matchesSearch db.availability params p = true := by
  unfold searchProperties at h
  simp only at h
  have h₁ := List.Sublist.mem h (List.take_sublist _ _)
  have h₂ := List.Sublist.mem h₁ (List.drop_sublist _ _)
  have h₃ := mem_sortLe.mp h₂
  exact List.of_mem_filter h₃

theorem matchesSearch_active {avail : List AvailRow} {params : SearchParams}
    {p : Property} (h : matchesSearch avail params p = true) :
    p.is_active = true := by
  simp only [matchesSearch, Bool.and_eq_true] at h
  exact h.1.1.1.1.1.1.1

theorem matchesSearch_dateOk {avail : List AvailRow} {params : SearchParams}
    {p : Property} (h : matchesSearch avail params p = true) :
    dateAvailabilityOk avail params p = true := by
  simp only [matchesSearch, Bool.and_eq_true] at h
  exact h.2

/-! ## Claims -/

/-- C10: the `total_count` answered by `GET /api/properties` is the count
of all `is_active = true` properties, ignoring every supplied filter and
the pagination; consequently it can exceed the number of properties that
match the query. -/
theorem searchProperties_total_count_ignores_filters :
    (∀ (db : DB) (params : SearchParams),
        (searchProperties db params).total_count
          = (db.properties.filter fun p => p.is_active).length)
      ∧ ∃ (db : DB) (params : SearchParams),
          ((searchProperties db params).properties).length
            < (searchProperties db params).total_count := by
  refine ⟨fun db params => rfl, ⟨{ db0 with properties := [prop1] },
    { property_type := some "villa" }, by decide⟩⟩

/-- C6: a property with `is_active = false` never appears in
`GET /api/properties` results whatever the filters, yet
`GET /api/properties/:property_id` still returns it (when it is in the
table and its id is unambiguous). -/
theorem inactive_property_excluded_from_search_but_fetchable :
    ∀ (db : DB) (p : Property), p.is_active = false →
      (∀ params : SearchParams, p ∉ (searchProperties db params).properties)
      ∧ (p ∈ db.properties →
          (∀ q ∈ db.properties, q.property_id = p.property_id → q = p) →
          getProperty db p.property_id = .ok p) := by
  intro db p hinact
  constructor
  · intro params hmem
    have h := matchesSearch_active (matchesSearch_of_mem_search hmem)
    rw [hinact] at h
    exact Bool.false_ne_true h
  · intro hmem huniq
    have hsome : (db.properties.find? fun q => q.property_id = p.property_id).isSome := by
      rw [List.find?_isSome]
      exact ⟨p, hmem, by simp⟩
    obtain ⟨q, hq⟩ := Option.isSome_iff_exists.mp hsome
    have hqid : q.property_id = p.property_id := by
      have := List.find?_some hq
      simpa using this
    have hqp : q = p := huniq q (List.mem_of_find?_eq_some hq) hqid
    simp [getProperty, hq, hqp]

/-- C6 witness: the inactive `prop2` is excluded from every search over
`db6` but fetchable by id. -/
theorem inactive_property_excluded_witness :
    prop2.is_active = false
      ∧ (∀ params : SearchParams, prop2 ∉ (searchProperties db6 params).properties)
      ∧ getProperty db6 "prop_2" = .ok prop2 := by
  have h := inactive_property_excluded_from_search_but_fetchable db6 prop2 (by decide)
  exact ⟨by decide, h.1, h.2 (by decide) (by decide)⟩

/-- C5 counterexample: in `db5` the only availability record of `prop_1`
blocks exactly the check-out date `2023-06-05`; no date in the half-open
interval `[2023-06-01, 2023-06-05)` is blocked, yet the search for that
range excludes `prop_1`, because the handler's SQL uses
`date BETWEEN check_in AND check_out`, which includes the check-out
date. -/
theorem search_halfopen_counterexample :
    (db5.availability.any fun r =>
        r.property_id = prop1.property_id && strLe "2023-06-01" r.date
          && strLt r.date "2023-06-05" && r.is_available = false) = false
      ∧ prop1 ∉ (searchProperties db5 params5).properties := by
  decide

/-- C5 amended: with a date range supplied, the search's availability
condition rejects a property exactly when some date in the closed
interval `[check_in, check_out]` (SQL `BETWEEN`, so the check-out date
included) carries an explicit `is_available = false` record; a date with
no record counts as available, and every property in the results passes
the condition. -/
theorem dateAvailability_closed_interval :
    ∀ (db : DB) (params : SearchParams) (p : Property) (ci co : String),
      params.check_in = some ci → params.check_out = some co →
      (dateAvailabilityOk db.availability params p = false ↔
          ∃ r ∈ db.availability, r.property_id = p.property_id
            ∧ strLe ci r.date = true ∧ strLe r.date co = true
            ∧ r.is_available = false)
        ∧ (p ∈ (searchProperties db params).properties →
            dateAvailabilityOk db.availability params p = true) := by
  intro db params p ci co hci hco
  constructor
  · simp only [dateAvailabilityOk, hci, hco, Bool.not_eq_false']
    rw [List.any_eq_true]
    simp [Bool.and_eq_true, and_assoc]
  · intro hmem
    exact matchesSearch_dateOk (matchesSearch_of_mem_search hmem)

/-- C5 amended witness: over `db5`, the range `[2023-06-01, 2023-06-05]`
finds the blocking record at the check-out date, so the availability
condition rejects `prop_1`. -/
theorem dateAvailability_closed_interval_witness :
    (dateAvailabilityOk db5.availability params5 prop1 = false ↔
        ∃ r ∈ db5.availability, r.property_id = prop1.property_id
          ∧ strLe "2023-06-01" r.date = true
          ∧ strLe r.date "2023-06-05" = true
          ∧ r.is_available = false)
      ∧ (prop1 ∈ (searchProperties db5 params5).properties →
          dateAvailabilityOk db5.availability params5 prop1 = true) :=
  dateAvailability_closed_interval db5 params5 prop1 "2023-06-01" "2023-06-05"
    rfl rfl

/-- Did the handler answer successfully? -/
def isOkB {ε α : Type} : Except ε α → Bool
  | .ok _ => true
  | .error _ => false

def inputOk : CreateBookingInput :=
  { property_id := "prop_1", check_in := "2023-07-01"
    check_out := "2023-07-03", guest_count := 2, total_price := 200
    service_fee := 20 }

def input7 : CreateBookingInput := { inputOk with property_id := "prop_2" }

def dbProp1 : DB := { db0 with properties := [prop1] }

/-- The booking produced by `createBooking dbProp1 guestU inputOk …`. -/
def bookW : Booking :=
  { booking_id := "book_1", property_id := "prop_1", guest_id := "user_g"
    host_id := "user_h", check_in := "2023-07-01", check_out := "2023-07-03"
    guest_count := 2, total_price := 200, service_fee := 20
    special_requests := none, status := "pending", created_at := "t0"
    updated_at := "t0" }

def convW : Conversation :=
  { conversation_id := "conv_1", booking_id := "book_1", guest_id := "user_g"
    host_id := "user_h", created_at := "t0", updated_at := "t0" }

def notifW : Notification :=
  { notification_id := "not_1", user_id := "user_h", type := "booking_request"
    title := "New Booking Request"
    message := "You have a new booking request from Guest G"
    related_entity_type := some "booking", related_entity_id := some "book_1"
    is_read := false, created_at := "t0" }

def dbW : DB :=
  { db0 with
    properties := [prop1]
    bookings := [bookW]
    conversations := [convW]
    notifications := [notifW] }

/-- C2: a successful `POST /api/bookings` creates exactly one
conversation carrying the new booking's id and exactly one
`booking_request` notification addressed to the property's host (counted
among rows referencing that booking id, which is fresh). -/
theorem createBooking_conversation_and_notification :
    ∀ (db : DB) (user : User) (input : CreateBookingInput)
      (bid cid nid now : String) (db' : DB) (b : Booking),
      createBooking db user input bid cid nid now = .ok (db', b) →
      db.conversations.countP (fun c => c.booking_id = b.booking_id) = 0 →
      db.notifications.countP (fun n => n.type = "booking_request"
        && n.user_id = b.host_id && n.related_entity_id = some b.booking_id) = 0 →
      db'.conversations.countP (fun c => c.booking_id = b.booking_id) = 1
        ∧ db'.notifications.countP (fun n => n.type = "booking_request"
            && n.user_id = b.host_id
            && n.related_entity_id = some b.booking_id) = 1 := by
  intro db user input bid cid nid now db' b h hc hn
  simp only [createBooking] at h
  split at h
  · exact absurd h (by simp)
  · split at h
    · exact absurd h (by simp)
    · simp only [Except.ok.injEq, Prod.mk.injEq] at h
      obtain ⟨hdb, hb⟩ := h
      subst hdb
      subst hb
      constructor
      · simp [List.countP_append, List.countP_cons, hc]
      · simp [List.countP_append, List.countP_cons, hn]

/-- C2 witness: creating a booking on `dbProp1` yields one conversation
and one host notification for the fresh booking id. -/
theorem createBooking_conversation_and_notification_witness :
    dbW.conversations.countP (fun c => c.booking_id = bookW.booking_id) = 1
      ∧ dbW.notifications.countP (fun n => n.type = "booking_request"
          && n.user_id = bookW.host_id
          && n.related_entity_id = some bookW.booking_id) = 1 :=
  createBooking_conversation_and_notification dbProp1 guestU inputOk
    "book_1" "conv_1" "not_1" "t0" dbW bookW rfl (by decide) (by decide)

/-- C7 counterexample: `prop_2` is inactive, yet `POST /api/bookings`
for it succeeds — the handler checks only that the property row exists
(`SELECT host_id FROM properties WHERE property_id = $1`), never
`is_active`. -/
theorem createBooking_inactive_property_counterexample :
    prop2.is_active = false
      ∧ isOkB (createBooking db6 guestU input7 "book_7" "conv_7" "not_7" "t0")
          = true := by
  decide

/-- C7 amended: booking creation requires the referenced property to
exist (a missing property fails with PROPERTY_NOT_FOUND and nothing is
inserted) but does not require it to be active; on success the booking's
`host_id` is copied from the property row and, with no status supplied,
its status defaults to `pending`. -/
theorem createBooking_requires_existing_property :
    ∀ (db : DB) (user : User) (input : CreateBookingInput)
      (bid cid nid now : String),
      validCreateBookingInput input = true →
      (db.properties.find? (fun p => p.property_id = input.property_id) = none →
          createBooking db user input bid cid nid now = .error .PROPERTY_NOT_FOUND)
        ∧ (∀ prop : Property,
            db.properties.find? (fun p => p.property_id = input.property_id)
              = some prop →
            input.status = none →
            ∃ (db' : DB) (b : Booking),
              createBooking db user input bid cid nid now = .ok (db', b)
                ∧ b.host_id = prop.host_id ∧ b.status = "pending") := by
  intro db user input bid cid nid now hvalid
  constructor
  · intro hnone
    simp [createBooking, hvalid, hnone]
  · intro prop hfind hstat
    unfold createBooking
    rw [hfind, if_neg (by simp [hvalid])]
    exact ⟨_, _, rfl, rfl, by simp [hstat]⟩

/-- C7 amended witness: on `db6` the handler rejects an unknown property
id with PROPERTY_NOT_FOUND, and accepts the existing `prop_2` (copying
its host and defaulting status to pending). -/
theorem createBooking_requires_existing_property_witness :
    createBooking db6 guestU { inputOk with property_id := "prop_9" }
        "book_9" "conv_9" "not_9" "t0" = .error .PROPERTY_NOT_FOUND
      ∧ ∃ (db' : DB) (b : Booking),
          createBooking db6 guestU input7 "book_8" "conv_8" "not_8" "t0"
            = .ok (db', b) ∧ b.host_id = prop2.host_id ∧ b.status = "pending" :=
  ⟨(createBooking_requires_existing_property db6 guestU
      { inputOk with property_id := "prop_9" } "book_9" "conv_9" "not_9" "t0"
      (by decide)).1 (by decide),
    (createBooking_requires_existing_property db6 guestU input7
      "book_8" "conv_8" "not_8" "t0" (by decide)).2 prop2 (by decide) rfl⟩

def bookPending : Booking := { bookW with booking_id := "book_p", status := "pending" }

def bookCompleted : Booking := { bookW with booking_id := "book_c", status := "completed" }

def reviewInput1 : ReviewInput :=
  { cleanliness_rating := 5, accuracy_rating := 5, communication_rating := 5
    location_rating := 4, check_in_rating := 5, value_rating := 5
    overall_rating := 5 }

def dbRevPending : DB := { db0 with properties := [prop1], bookings := [bookPending] }

def dbRev : DB := { db0 with properties := [prop1], bookings := [bookCompleted] }

/-- The review produced by `createReview dbRev guestU "book_c" …`. -/
def revW : Review :=
  { review_id := "rev_1", booking_id := "book_c", property_id := "prop_1"
    reviewer_id := "user_g", host_id := "user_h", cleanliness_rating := 5
    accuracy_rating := 5, communication_rating := 5, location_rating := 4
    check_in_rating := 5, value_rating := 5, overall_rating := 5
    comment := none, created_at := "t1", updated_at := "t1" }

def revNotifW : Notification :=
  { notification_id := "not_1", user_id := "user_h", type := "review_received"
    title := "New Review"
    message := "You received a new review from Guest G"
    related_entity_type := some "review", related_entity_id := some "rev_1"
    is_read := false, created_at := "t1" }

def dbRevAfter : DB :=
  { db0 with
    properties := [prop1]
    bookings := [bookCompleted]
    notifications := [revNotifW]
    reviews := [revW] }

/-- C3: a review attempt by the booking's guest on a booking whose
status is `pending`, `confirmed`, `declined` or `cancelled` fails with
BOOKING_NOT_COMPLETED (the handler answers before any INSERT, so no
review row is created), and any successful review creation implies the
booking was `completed` and the requester its guest. -/
theorem createReview_only_completed_by_guest :
    ∀ (db : DB) (user : User) (booking_id : String) (input : ReviewInput)
      (rid nid now : String) (booking : Booking),
      db.bookings.find? (fun b => b.booking_id = booking_id) = some booking →
      (booking.guest_id = user.user_id →
          booking.status ∈ (["pending", "confirmed", "declined",
            "cancelled"] : List String) →
          createReview db user booking_id input rid nid now
            = .error .BOOKING_NOT_COMPLETED)
        ∧ (∀ (db' : DB) (r : Review),
            createReview db user booking_id input rid nid now = .ok (db', r) →
            booking.status = "completed" ∧ booking.guest_id = user.user_id) := by
  intro db user booking_id input rid nid now booking hfind
  constructor
  · intro hguest hstat
    have hne : booking.status ≠ "completed" := by
      simp only [List.mem_cons, List.not_mem_nil, or_false] at hstat
      rcases hstat with h | h | h | h <;> rw [h] <;> decide
    simp only [createReview, hfind, optCase_some]
    rw [if_neg (by simp [hguest]), if_pos hne]
  · intro db' r h
    simp only [createReview, hfind, optCase_some] at h
    by_cases hg : booking.guest_id ≠ user.user_id
    · rw [if_pos hg] at h
      exact absurd h (by simp)
    · rw [if_neg hg] at h
      push_neg at hg
      by_cases hs : booking.status ≠ "completed"
      · rw [if_pos hs] at h
        exact absurd h (by simp)
      · push_neg at hs
        exact ⟨hs, hg⟩

/-- C3 witness: the guest's review attempt on the pending `book_p` fails
with BOOKING_NOT_COMPLETED. -/
theorem createReview_only_completed_by_guest_witness :
    createReview dbRevPending guestU "book_p" reviewInput1 "rev_1" "not_1" "t1"
      = .error .BOOKING_NOT_COMPLETED :=
  (createReview_only_completed_by_guest dbRevPending guestU "book_p"
    reviewInput1 "rev_1" "not_1" "t1" bookPending (by decide)).1
    (by decide) (by decide)

/-- C4: after a successful review creation for a booking, the database
holds exactly one review with that booking id, and any further creation
attempt by the guest fails with REVIEW_ALREADY_EXISTS (before any
INSERT, so the review set is unchanged). -/
theorem review_unique_per_booking :
    ∀ (db : DB) (user : User) (booking_id : String) (input : ReviewInput)
      (rid nid now : String) (db' : DB) (r : Review),
      createReview db user booking_id input rid nid now = .ok (db', r) →
      (∀ (input' : ReviewInput) (rid' nid' now' : String),
          createReview db' user booking_id input' rid' nid' now'
            = .error .REVIEW_ALREADY_EXISTS)
        ∧ db'.reviews.countP (fun x => x.booking_id = booking_id) = 1 := by
  intro db user booking_id input rid nid now db' r h
  cases hfind : db.bookings.find? (fun b => b.booking_id = booking_id) with
  | none =>
    simp only [createReview, hfind, optCase_none] at h
    exact absurd h (by simp)
  | some booking =>
    simp only [createReview, hfind, optCase_some] at h
    by_cases hg : booking.guest_id ≠ user.user_id
    · rw [if_pos hg] at h
      exact absurd h (by simp)
    rw [if_neg hg] at h
    push_neg at hg
    by_cases hs : booking.status ≠ "completed"
    · rw [if_pos hs] at h
      exact absurd h (by simp)
    rw [if_neg hs] at h
    push_neg at hs
    by_cases hex : db.reviews.any (fun x => x.booking_id = booking_id) = true
    · rw [if_pos hex] at h
      exact absurd h (by simp)
    rw [if_neg hex] at h
    by_cases hv : ¬ validReviewInput input = true
    · rw [if_pos hv] at h
      exact absurd h (by simp)
    rw [if_neg hv] at h
    simp only [Except.ok.injEq, Prod.mk.injEq] at h
    obtain ⟨hdb, hr⟩ := h
    have hex' : db.reviews.any (fun x => x.booking_id = booking_id) = false := by
      simpa using hex
    have hcount0 : db.reviews.countP (fun x => x.booking_id = booking_id) = 0 := by
      rw [List.countP_eq_zero]
      intro a ha
      have := List.any_eq_false.mp hex' a ha
      simpa using this
    have hcount1 : db'.reviews.countP (fun x => x.booking_id = booking_id) = 1 := by
      rw [← hdb]
      simp [List.countP_append, List.countP_cons, hcount0]
    refine ⟨?_, hcount1⟩
    intro input' rid' nid' now'
    have hfind' : db'.bookings.find? (fun b => b.booking_id = booking_id)
        = some booking := by
      rw [← hdb]
      exact hfind
    have hany' : db'.reviews.any (fun x => x.booking_id = booking_id) = true := by
      rw [← hdb]
      simp
    simp only [createReview, hfind', optCase_some]
    rw [if_neg (by simp [hg]), if_neg (by simp [hs]), if_pos hany']

/-- C4 witness: after the first review of `book_c`, exactly one review
for it exists and a repeat attempt fails with REVIEW_ALREADY_EXISTS. -/
theorem review_unique_per_booking_witness :
    createReview dbRevAfter guestU "book_c" reviewInput1 "rev_2" "not_2" "t2"
      = .error .REVIEW_ALREADY_EXISTS
      ∧ dbRevAfter.reviews.countP (fun x => x.booking_id = "book_c") = 1 := by
  have h := review_unique_per_booking dbRev guestU "book_c" reviewInput1
    "rev_1" "not_1" "t1" dbRevAfter revW rfl
  exact ⟨h.1 reviewInput1 "rev_2" "not_2" "t2", h.2⟩

/-- The updated status answered by a PATCH, `none` on error. -/
def patchStatusOf : Except ErrCode (DB × Booking) → Option String
  | .ok (_, b) => some b.status
  | .error _ => none

/-- Helper: an admin or either party to the booking succeeds in setting
any enum status with a status-only PATCH body. -/
theorem patchBooking_status_ok_aux
    {db : DB} {user : User} {booking_id : String} (s nid now : String)
    {cur : Booking}
    (hfind : db.bookings.find? (fun b => b.booking_id = booking_id) = some cur)
    (hauth : user.role = "admin" ∨ cur.guest_id = user.user_id
      ∨ cur.host_id = user.user_id)
    (hs : bookingStatuses.contains s = true) :
    ∃ (db' : DB) (b : Booking),
      patchBooking db user booking_id { status := some s } nid now
        = .ok (db', b) ∧ b.status = s := by
  simp only [patchBooking, hfind, optCase_some]
  have hguard : ¬ ((user.role ≠ "admin" && cur.guest_id ≠ user.user_id
      && cur.host_id ≠ user.user_id) = true) := by
    rcases hauth with h | h | h <;> simp [h]
  rw [if_neg hguard]
  have hs' : s ∈ bookingStatuses := by simpa using hs
  have hvalid : validUpdateBookingInput { status := some s } = true := by
    simp [validUpdateBookingInput, hs']
  rw [if_neg (by simp [hvalid]), if_neg (by simp [hasUpdateField])]
  exact ⟨_, _, rfl, rfl⟩

/-- Helper: a requester who is neither admin nor a party to the booking
is rejected with FORBIDDEN_ACCESS before any write. -/
theorem patchBooking_forbidden_aux
    {db : DB} {user : User} {booking_id : String} (u : UpdateBookingInput)
    (nid now : String) {cur : Booking}
    (hfind : db.bookings.find? (fun b => b.booking_id = booking_id) = some cur)
    (h₁ : user.role ≠ "admin") (h₂ : cur.guest_id ≠ user.user_id)
    (h₃ : cur.host_id ≠ user.user_id) :
    patchBooking db user booking_id u nid now = .error .FORBIDDEN_ACCESS := by
  simp only [patchBooking, hfind, optCase_some]
  rw [if_pos (by simp [h₁, h₂, h₃])]

/-- Helper: a status value outside the zod enum is rejected with a
validation error before any write. -/
theorem patchBooking_status_invalid_aux
    {db : DB} {user : User} {booking_id : String} (s nid now : String)
    {cur : Booking}
    (hfind : db.bookings.find? (fun b => b.booking_id = booking_id) = some cur)
    (hauth : user.role = "admin" ∨ cur.guest_id = user.user_id
      ∨ cur.host_id = user.user_id)
    (hs : bookingStatuses.contains s = false) :
    patchBooking db user booking_id { status := some s } nid now
      = .error .VALIDATION_ERROR := by
  simp only [patchBooking, hfind, optCase_some]
  have hguard : ¬ ((user.role ≠ "admin" && cur.guest_id ≠ user.user_id
      && cur.host_id ≠ user.user_id) = true) := by
    rcases hauth with h | h | h <;> simp [h]
  rw [if_neg hguard]
  have hs' : s ∉ bookingStatuses := by simpa using hs
  have hvalid : validUpdateBookingInput { status := some s } = false := by
    simp [validUpdateBookingInput, hs']
  rw [if_pos (by simp [hvalid])]

/-- C1 counterexample: `book_c` is `completed` (a terminal state with no
outgoing edge), yet the host's PATCH to `status = "pending"` succeeds
and sets the status — the handler validates only membership in the zod
enum, never the state-machine edge. -/
theorem patchBooking_edge_counterexample :
    bookCompleted.status = "completed"
      ∧ patchStatusOf (patchBooking dbRev hostU "book_c"
          { status := some "pending" } "not_9" "t9") = some "pending" := by
  decide

/-- C1 amended: a status-only PATCH by an admin or either party changes
the status to any of the five enum values regardless of the current
status (no transition edges are enforced); a status outside the enum
fails with VALIDATION_ERROR before any write, leaving the booking
unchanged. -/
theorem patchBooking_status_enum_only :
    ∀ (db : DB) (user : User) (booking_id s nid now : String) (cur : Booking),
      db.bookings.find? (fun b => b.booking_id = booking_id) = some cur →
      (user.role = "admin" ∨ cur.guest_id = user.user_id
        ∨ cur.host_id = user.user_id) →
      (bookingStatuses.contains s = true →
          ∃ (db' : DB) (b : Booking),
            patchBooking db user booking_id { status := some s } nid now
              = .ok (db', b) ∧ b.status = s)
        ∧ (bookingStatuses.contains s = false →
            patchBooking db user booking_id { status := some s } nid now
              = .error .VALIDATION_ERROR) := by
  intro db user booking_id s nid now cur hfind hauth
  exact ⟨patchBooking_status_ok_aux s nid now hfind hauth,
    patchBooking_status_invalid_aux s nid now hfind hauth⟩

/-- C1 amended witness: the host moves `book_p` straight from `pending`
to `completed` — not an edge of the specified machine, but accepted. -/
theorem patchBooking_status_enum_only_witness :
    ∃ (db' : DB) (b : Booking),
      patchBooking dbRevPending hostU "book_p" { status := some "completed" }
        "not_3" "t3" = .ok (db', b) ∧ b.status = "completed" :=
  (patchBooking_status_enum_only dbRevPending hostU "book_p" "completed"
    "not_3" "t3" bookPending (by decide) (by decide)).1 (by decide)

/-- C8 counterexample: `guestU` is `book_p`'s guest (not its host, not
an admin), and the booking is `pending`; the guest's PATCH to
`status = "confirmed"` succeeds — the handler never restricts the
confirm/decline transitions to host or admin. -/
theorem patchBooking_guest_confirm_counterexample :
    bookPending.status = "pending"
      ∧ bookPending.guest_id = guestU.user_id
      ∧ guestU.role ≠ "admin"
      ∧ bookPending.host_id ≠ guestU.user_id
      ∧ patchStatusOf (patchBooking dbRevPending guestU "book_p"
          { status := some "confirmed" } "not_9" "t9") = some "confirmed" := by
  decide

/-- C8 amended: on a pending booking, `confirmed` and `declined` can be
set by any of the booking's guest, host, or an admin; only a requester
who is none of these is rejected, with FORBIDDEN_ACCESS and no write. -/
theorem patchBooking_confirm_decline_any_party :
    ∀ (db : DB) (user : User) (booking_id s nid now : String) (cur : Booking)
      (u : UpdateBookingInput),
      db.bookings.find? (fun b => b.booking_id = booking_id) = some cur →
      cur.status = "pending" →
      (s = "confirmed" ∨ s = "declined") →
      ((user.role = "admin" ∨ cur.guest_id = user.user_id
          ∨ cur.host_id = user.user_id) →
          ∃ (db' : DB) (b : Booking),
            patchBooking db user booking_id { status := some s } nid now
              = .ok (db', b) ∧ b.status = s)
        ∧ (user.role ≠ "admin" → cur.guest_id ≠ user.user_id →
            cur.host_id ≠ user.user_id →
            patchBooking db user booking_id u nid now
              = .error .FORBIDDEN_ACCESS) := by
  intro db user booking_id s nid now cur u hfind hpend hs
  have hcontains : bookingStatuses.contains s = true := by
    rcases hs with h | h <;> rw [h] <;> decide
  exact ⟨fun hauth => patchBooking_status_ok_aux s nid now hfind hauth hcontains,
    fun h₁ h₂ h₃ => patchBooking_forbidden_aux u nid now hfind h₁ h₂ h₃⟩

/-- C8 amended witness: the guest declines their own pending booking
(accepted), and the unrelated `outsiderU` is rejected with
FORBIDDEN_ACCESS. -/
theorem patchBooking_confirm_decline_any_party_witness :
    (∃ (db' : DB) (b : Booking),
        patchBooking dbRevPending guestU "book_p" { status := some "declined" }
          "not_4" "t4" = .ok (db', b) ∧ b.status = "declined")
      ∧ patchBooking dbRevPending outsiderU "book_p"
          { status := some "declined" } "not_4" "t4"
          = .error .FORBIDDEN_ACCESS :=
  ⟨(patchBooking_confirm_decline_any_party dbRevPending guestU "book_p"
      "declined" "not_4" "t4" bookPending { status := some "declined" }
      (by decide) rfl (Or.inr rfl)).1 (by decide),
    (patchBooking_confirm_decline_any_party dbRevPending outsiderU "book_p"
      "declined" "not_4" "t4" bookPending { status := some "declined" }
      (by decide) rfl (Or.inr rfl)).2 (by decide) (by decide) (by decide)⟩

/-- C9 (code bug): the handler's `INSERT … ON CONFLICT (property_id,
date) DO UPDATE` names a conflict target that no unique constraint of
`property_availability` backs (the DDL declares only the primary key
`availability_id`), so Postgres rejects the statement and every
availability write — here the host blocking `2023-07-01` on `prop_1` —
ends in the 500 error path instead of performing the upsert. -/
theorem upsertAvailability_conflict_target_unbacked :
    property_availability_unique_keys.contains availabilityOnConflictTarget
        = false
      ∧ upsertAvailability dbProp1 hostU "prop_1" "2023-07-01" false none
          "avail_9" = .error .INTERNAL_SERVER_ERROR :=
  ⟨by decide, rfl⟩

end Srv
